import Mathlib

/-!
Verification development for the Pingu network monitor.

The definitions below are a shallow embedding of the repository's core
modules:

* `core/state.py`   — the per-target UP/DOWN outage state machine;
* `core/ping.py`    — probe-outcome interpretation and latency parsing;
* `core/monitor.py` — display formatting, notification decisions, the
  per-target scheduling loop, and the shared concurrency limiter.

Mutable state in the Python code becomes explicit state passing
(`OutageState` transition functions, a step relation for the semaphore of
the scheduler).  Machine floats in the source are modelled as rationals;
Python `round`/`"%.0f"` use round-half-to-even, modelled explicitly.
Subprocess execution is modelled by an outcome type (`ProcOutcome`)
covering the three branches of `run_ping`'s `try`/`except` dispatch.
-/

namespace Pingu

/-! ## core/state.py -/

/-- The two states of the outage state machine (`State` in `core/state.py`). -/
inductive State where
  | UP
  | DOWN
deriving DecidableEq, Repr

/-- `OutageState.record_success`, as a pure transition: from the current
state, return the pair the Python method returns — `(previous_state,
should_notify_reachable_again)` — together with the new state. -/
def record_success (s : State) : (State × Bool) × State :=
  match s with
  | .DOWN => ((.DOWN, true), .UP)
  | .UP => ((.UP, false), .UP)

/-- `OutageState.record_failure`, as a pure transition: from the current
state, return `(previous_state, is_first_failure_of_outage)` together with
the new state. -/
def record_failure (s : State) : (State × Bool) × State :=
  match s with
  | .UP => ((.UP, true), .DOWN)
  | .DOWN => ((.DOWN, false), .DOWN)

/-- One call in a sequence of state-machine operations. -/
inductive Op where
  | fail
  | succ
deriving DecidableEq, Repr

/-- Apply one operation to the state machine. -/
def step_op (s : State) (o : Op) : (State × Bool) × State :=
  match o with
  | .fail => record_failure s
  | .succ => record_success s

/-- Run a finite sequence of `record_failure`/`record_success` calls on a
single state machine, collecting the `(previous_state, flag)` results in
order. -/
def run_ops (s : State) : List Op → List (State × Bool)
  | [] => []
  | o :: rest =>
    let r := step_op s o
    r.1 :: run_ops r.2 rest

/-! ## String helpers (Python `in`, `.lower()`, `.upper()`) -/

/-- Character-list prefix test (model of the prefix step of Python's
substring search). -/
def isPrefixCh : List Char → List Char → Bool
  | [], _ => true
  | _ :: _, [] => false
  | a :: as, b :: bs => a = b && isPrefixCh as bs

/-- Substring test on character lists: `containsSub needle hay` is true
iff `needle` occurs contiguously in `hay` (model of Python's `in`). -/
def containsSub (needle : List Char) : List Char → Bool
  | [] => needle.isEmpty
  | c :: rest => isPrefixCh needle (c :: rest) || containsSub needle rest

/-- Python `needle in hay` for strings. -/
def strContains (hay needle : String) : Bool :=
  containsSub needle.data hay.data

/-- Python `str.lower()` (ASCII letters, as produced by ping output). -/
def lowerStr (s : String) : String :=
  ⟨s.data.map Char.toLower⟩

/-- Python `str.upper()` (ASCII letters). -/
def upperStr (s : String) : String :=
  ⟨s.data.map Char.toUpper⟩

/-! ## Python numeric formatting -/

/-- Round a rational to the nearest integer, ties to even — the rounding
used by Python's `round` and `format(..., ".0f")`. -/
def round_half_even (q : ℚ) : ℤ :=
  let f := ⌊q⌋
  let r := q - f
  if r < 1 / 2 then f
  else if 1 / 2 < r then f + 1
  else if Even f then f else f + 1

/-- Python `round(x, 1)`: round to one decimal place. -/
def py_round1 (q : ℚ) : ℚ :=
  (round_half_even (10 * q) : ℚ) / 10

/-- Decimal rendering of a natural number, as Python `str`. -/
def py_str_nat (n : ℕ) : String :=
  if n = 0 then "0"
  else ⟨((Nat.digits 10 n).reverse.map fun d => Char.ofNat (48 + d))⟩

/-- Decimal rendering of an integer, as Python `str` (used by the
f-string `f"ERROR:{returncode}"` in `core/ping.py`). -/
def py_str_int (i : ℤ) : String :=
  if i < 0 then "-" ++ py_str_nat i.natAbs else py_str_nat i.natAbs

/-! ## core/ping.py -/

/-- `PingResult` from `core/ping.py`: success flag, optional latency in
milliseconds (a Python float, modelled as a rational), and a reason
string (`"OK"`, `"TIMEOUT"`, `"UNREACHABLE"`, `"ERROR:<code>"`). -/
structure PingResult where
  success : Bool
  latency_ms : Option ℚ
  reason : String
deriving DecidableEq, Repr

/-- `_timeout_seconds` from `core/ping.py`:
`max(1, (timeout_ms + 999) // 1000)`. -/
def timeout_seconds (timeout_ms : ℕ) : ℕ :=
  max 1 ((timeout_ms + 999) / 1000)

/-- The non-Windows per-packet timeout handed to `ping -W` by `run_ping`. -/
def run_ping_packet_timeout (timeout_ms : ℕ) : ℕ :=
  timeout_seconds timeout_ms

/-- The non-Windows harness-level bound passed to `asyncio.wait_for` by
`run_ping`: the per-packet timeout plus 2 seconds of slack. -/
def run_ping_harness_timeout (timeout_ms : ℕ) : ℕ :=
  timeout_seconds timeout_ms + 2

/-- Python's `\s` whitespace class, restricted to ASCII. -/
def isSpaceChar (c : Char) : Bool :=
  c = ' ' || c = '\t' || c = '\n' || c = '\x0b' || c = '\x0c' || c = '\r'

/-- The character class `[\d.]` of the latency regexes. -/
def isDigitDot (c : Char) : Bool :=
  c.isDigit || c = '.'

/-- Match a fixed lowercase pattern case-insensitively at the head of the
input (the regexes in `_parse_latency` use `re.I`); on success return the
rest of the input. -/
def matchCI : List Char → List Char → Option (List Char)
  | [], l => some l
  | _ :: _, [] => none
  | p :: ps, c :: cs => if c.toLower = p then matchCI ps cs else none

/-- Try the first regex of `_parse_latency`,
`time[=:]?\s*([\d.]+)\s*ms` (case-insensitive), anchored at the given
position; on success return the captured `[\d.]+` group.  All the
character classes involved are pairwise disjoint, so Python's greedy
backtracking search at one position coincides with this deterministic
maximal munch. -/
def matchPat1At (l : List Char) : Option (List Char) :=
  match matchCI ['t', 'i', 'm', 'e'] l with
  | none => none
  | some r1 =>
    let r2 := match r1 with
      | c :: cs => if c = '=' || c = ':' then cs else r1
      | [] => r1
    let r3 := r2.dropWhile isSpaceChar
    let p := r3.span isDigitDot
    if p.1.isEmpty then none
    else
      let r5 := p.2.dropWhile isSpaceChar
      match matchCI ['m', 's'] r5 with
      | none => none
      | some _ => some p.1

/-- Try the second regex of `_parse_latency`, `([\d.]+)\s*ms`
(case-sensitive), anchored at the given position. -/
def matchPat2At (l : List Char) : Option (List Char) :=
  let p := l.span isDigitDot
  if p.1.isEmpty then none
  else
    match p.2.dropWhile isSpaceChar with
    | 'm' :: 's' :: _ => some p.1
    | _ => none

/-- `re.search`: try the anchored matcher at every position left to
right, returning the first (leftmost) capture. -/
def searchAt (f : List Char → Option (List Char)) : List Char → Option (List Char)
  | [] => f []
  | c :: rest =>
    match f (c :: rest) with
    | some g => some g
    | none => searchAt f rest

/-- Numeric value of a digit string. -/
def digitsToNat (ds : List Char) : ℕ :=
  ds.foldl (fun a c => 10 * a + (c.toNat - 48)) 0

/-- The digits before the dot (all of `l` if there is no dot). -/
def intPartOf (l : List Char) : List Char :=
  l.takeWhile (fun c => c ≠ '.')

/-- The digits after the dot (empty if there is no dot). -/
def fracPartOf (l : List Char) : List Char :=
  (l.dropWhile (fun c => c ≠ '.')).drop 1

/-- Python `float(s)` for a string `s` matching `[\d.]+`: defined (no
`ValueError`) iff `s` has at most one dot and at least one digit; its
value is the usual decimal reading. -/
def pyFloat (l : List Char) : Option ℚ :=
  if l.count '.' ≤ 1 && l.any Char.isDigit then
    some ((digitsToNat (intPartOf l) : ℚ)
      + (digitsToNat (fracPartOf l) : ℚ) / 10 ^ (fracPartOf l).length)
  else none

/-- The second-regex fallback inside `_parse_latency`. -/
def parse_latency_fallback (l : List Char) : Option ℚ :=
  match searchAt matchPat2At l with
  | some g => pyFloat g
  | none => none

/-- `_parse_latency` from `core/ping.py`: first regex
`time[=:]?\s*([\d.]+)\s*ms` (case-insensitive); if it does not match or
its group fails `float`, fall back to `([\d.]+)\s*ms`; if that also
fails, `None`. -/
def parse_latency (s : String) : Option ℚ :=
  let l := s.data
  match searchAt matchPat1At l with
  | some g =>
    match pyFloat g with
    | some v => some v
    | none => parse_latency_fallback l
  | none => parse_latency_fallback l

/-- `_interpret` from `core/ping.py`: classify a completed ping process
from its return code and output text. -/
def interpret (returncode : ℤ) (output : String) (elapsed_ms : ℚ)
    (_timeout_ms : ℕ) : PingResult :=
  if returncode = 0 then
    let lat := parse_latency output
    { success := true
      latency_ms := some (lat.getD (py_round1 elapsed_ms))
      reason := "OK" }
  else
    let ol := lowerStr output
    if strContains ol "timed out" || strContains ol "timeout"
        || strContains ol "request timed out" then
      { success := false, latency_ms := none, reason := "TIMEOUT" }
    else if strContains ol "unreachable" then
      { success := false, latency_ms := none, reason := "UNREACHABLE" }
    else
      { success := false, latency_ms := none, reason := "ERROR:" ++ py_str_int returncode }

/-- The code's timed-out indicator on the lowercased output (the first
failure test in `_interpret`). -/
def hasTimeoutInd (output : String) : Bool :=
  strContains (lowerStr output) "timed out" || strContains (lowerStr output) "timeout"
    || strContains (lowerStr output) "request timed out"

/-- The code's unreachable indicator on the lowercased output. -/
def hasUnreachInd (output : String) : Bool :=
  strContains (lowerStr output) "unreachable"

/-- Outcome of the awaited subprocess inside `run_ping`'s `try` block:
either the process completed (with `proc.returncode`, possibly `None`,
and decoded output), or `asyncio.wait_for` expired
(`asyncio.TimeoutError`), or some other exception was raised — e.g. the
subprocess could not be spawned — carrying an optional `returncode`
attribute and the exception type name. -/
inductive ProcOutcome where
  | completed (returncode : Option ℤ) (stdout : String)
  | harness_timeout
  | exn (returncode_attr : Option ℤ) (type_name : String)
deriving DecidableEq, Repr

/-- `run_ping` from `core/ping.py`, as a function of the subprocess
outcome and the measured elapsed time: completion goes through
`_interpret` (with `proc.returncode or 0`), `asyncio.TimeoutError` maps
to `TIMEOUT`, and any other exception maps to
`ERROR:<returncode attribute or exception type name>`. -/
def run_ping (o : ProcOutcome) (elapsed_ms : ℚ) (timeout_ms : ℕ) : PingResult :=
  match o with
  | .completed rc out => interpret (rc.getD 0) out elapsed_ms timeout_ms
  | .harness_timeout => { success := false, latency_ms := none, reason := "TIMEOUT" }
  | .exn rcAttr tyName =>
    { success := false
      latency_ms := none
      reason := "ERROR:" ++ (match rcAttr with
        | some n => py_str_int n
        | none => tyName) }

/-! ## core/config.py (the fields the scheduler reads) -/

/-- `TargetConfig` from `core/config.py`; the scheduler reads `alias`,
`host`, `interval`, `timeout` and `enabled`. -/
structure TargetConfig where
  alias_ : String
  host : String
  interval : ℕ
  timeout : ℕ
  enabled : Bool
deriving DecidableEq, Repr

/-! ## core/monitor.py -/

/-- `detail_for_display` from `core/monitor.py`. -/
def detail_for_display (success : Bool) (detail : String) (display_mode : String) : String :=
  if display_mode = "codes" then
    if success then "200"
    else if strContains (upperStr detail) "TIMEOUT" then "408"
    else "503"
  else detail

/-- The success-detail string computed in `run_one_target`:
`f"{result.latency_ms or 0:.0f}ms"` when the latency is present, else
`"0"`.  (`x or 0` only turns a zero latency into the equal integer `0`,
so the value formatted is the latency itself.) -/
def success_detail (latency_ms : Option ℚ) : String :=
  match latency_ms with
  | some v => py_str_int (round_half_even v) ++ "ms"
  | none => "0"

/-- The display line published by `run_one_target` for a given alias,
probe result and display mode. -/
def run_one_target_line (alias_ : String) (result : PingResult) (display_mode : String) : String :=
  if result.success then
    alias_ ++ " - OK " ++ detail_for_display true (success_detail result.latency_ms) display_mode
  else
    alias_ ++ " - DOWN " ++ detail_for_display false result.reason display_mode

/-- One call to `notify.notify(title, message, play_sound)`. -/
structure NotifyCall where
  title : String
  message : String
  play_sound : Bool
deriving DecidableEq, Repr

/-- The Notifier invocations made by one probe cycle of `run_one_target`,
as a function of the probe success flag, the flag returned by the outage
state machine (`should_announce_recovery` on success,
`is_first_failure_of_outage` on failure), the failure reason, and the
`notifications_enabled` / `sound_on_down` settings. -/
def run_one_target_notifications (alias_ : String) (success flag : Bool)
    (reason : String) (notifications_enabled sound_on_down : Bool) : List NotifyCall :=
  if success then
    if flag && notifications_enabled then
      [⟨"Pingu", alias_ ++ " is reachable again.", false⟩]
    else []
  else
    if notifications_enabled then
      if flag && sound_on_down then
        [⟨"Pingu", alias_ ++ " is DOWN: " ++ reason ++ ".", true⟩]
      else
        [⟨"Pingu", alias_ ++ " is DOWN: " ++ reason ++ ".", false⟩]
    else []

/-- The number of Notifier invocations computed by the
notification-decision rules as claim C4 states them: on success, one
invocation exactly when the recovery flag and notifications are enabled;
on failure, one invocation when notifications are enabled and it is the
first failure and sound-on-down is enabled, or when notifications are
enabled and it is not the first failure; otherwise none.  (Spec-side
definition, for comparison with `run_one_target_notifications`.) -/
def claimed_notify_count (success flag notifications_enabled sound_on_down : Bool) : ℕ :=
  if success then
    if flag && notifications_enabled then 1 else 0
  else
    if notifications_enabled && flag && sound_on_down then 1
    else if notifications_enabled && !flag then 1
    else 0

/-- The number of Notifier invocations under the amended rules: on
success, one exactly when the recovery flag and notifications are
enabled; on failure, one exactly when notifications are enabled
(sound-on-down only selects the sound).  (Spec-side definition for the
amended claim.) -/
def amended_notify_count (success flag notifications_enabled : Bool) : ℕ :=
  if success then
    if flag && notifications_enabled then 1 else 0
  else
    if notifications_enabled then 1 else 0

/-- The re-resolution step at each cycle boundary of `schedule_target`:
`next((t for t in state.targets if t.alias == target.alias), None)` —
the first target in the live list with the given alias, if any. -/
def resolve (targets : List TargetConfig) (alias_ : String) : Option TargetConfig :=
  targets.find? (fun t => t.alias_ == alias_)

/-- The per-target scheduling loop of `schedule_target`, abstracted over
time: `lists k` is the live target list observed at cycle boundary `k`,
and the result is the sequence of re-resolved targets actually probed
(one entry per completed `run_one_target` call).  The loop ends — and
the recursion returns normally — as soon as the alias no longer resolves
or resolves to a disabled target.  `fuel` bounds the number of cycles
observed (the Python loop runs until cancelled). -/
def schedule_trace (fuel : ℕ) (lists : ℕ → List TargetConfig) (k : ℕ)
    (alias_ : String) : List TargetConfig :=
  match fuel with
  | 0 => []
  | fuel + 1 =>
    match resolve (lists k) alias_ with
    | none => []
    | some t =>
      if t.enabled then t :: schedule_trace fuel lists (k + 1) alias_
      else []

/-! ## The shared concurrency limiter

`MonitorState.ensure_structures` creates `asyncio.Semaphore(self.concurrency)`
and every probe in `run_one_target` runs inside `async with state.sem`.
The state of the limiter protocol: the semaphore's free-permit counter
plus, for each of the `M` per-target tasks, whether it currently holds a
permit (its probe is in flight).  `acquire` is only enabled when a free
permit exists; `release` returns it. -/

/-- Limiter-protocol state for `M` per-target tasks: the semaphore's
free-permit counter, and which tasks are currently inside the
`async with state.sem` block (probe in flight). -/
structure MonSt (M : ℕ) where
  sem : ℕ
  probing : Fin M → Bool

/-- Number of probes in flight. -/
def inFlight {M : ℕ} (s : MonSt M) : ℕ :=
  (Finset.univ.filter fun i => s.probing i).card

/-- One transition of the limiter protocol: a task not in flight acquires
a free permit and starts its probe, or a task in flight finishes its
probe and releases its permit. -/
inductive MonStep (M : ℕ) : MonSt M → MonSt M → Prop where
  | acquire (s : MonSt M) (i : Fin M) (k : ℕ) :
      s.probing i = false → s.sem = k + 1 →
      MonStep M s ⟨k, Function.update s.probing i true⟩
  | release (s : MonSt M) (i : Fin M) :
      s.probing i = true →
      MonStep M s ⟨s.sem + 1, Function.update s.probing i false⟩

/-- The start of a monitoring session with concurrency limit `N`:
`asyncio.Semaphore(N)` full, no probe in flight. -/
def initSt (M N : ℕ) : MonSt M :=
  ⟨N, fun _ => false⟩

/-- States reachable during a session with `M` tasks and limit `N`. -/
def Reachable (M N : ℕ) (s : MonSt M) : Prop :=
  Relation.ReflTransGen (MonStep M) (initSt M N) s

/-! ## Helper lemmas -/

theorem data_append (a b : String) : (a ++ b).data = a.data ++ b.data := by
  cases a; cases b; rfl

theorem isPrefixCh_subset (n : List Char) :
    ∀ h : List Char, isPrefixCh n h = true → ∀ c ∈ n, c ∈ h := by
  induction n with
  | nil => intro h _ c hc; simp at hc
  | cons a as ih =>
    intro h hp c hc
    cases h with
    | nil => simp [isPrefixCh] at hp
    | cons b bs =>
      simp only [isPrefixCh, Bool.and_eq_true, decide_eq_true_eq] at hp
      rcases hp with ⟨rfl, hp2⟩
      rcases List.mem_cons.1 hc with rfl | hc2
      · exact List.mem_cons_self _ _
      · exact List.mem_cons_of_mem _ (ih bs hp2 c hc2)

theorem containsSub_subset (n : List Char) :
    ∀ h : List Char, containsSub n h = true → ∀ c ∈ n, c ∈ h := by
  intro h
  induction h with
  | nil =>
    intro hc c hcn
    unfold containsSub at hc
    cases n with
    | nil => simp at hcn
    | cons a as => simp [List.isEmpty] at hc
  | cons b bs ih =>
    intro hc c hcn
    unfold containsSub at hc
    rw [Bool.or_eq_true] at hc
    rcases hc with h1 | h2
    · exact isPrefixCh_subset n _ h1 c hcn
    · exact List.mem_cons_of_mem _ (ih h2 c hcn)

theorem py_str_nat_chars (n : ℕ) :
    ∀ c ∈ (py_str_nat n).data, c ∈ ("0123456789" : String).data := by
  intro c hc
  unfold py_str_nat at hc
  split at hc
  · have h0 : ("0" : String).data = ['0'] := rfl
    rw [h0] at hc
    simp at hc
    subst hc; decide
  · rcases List.mem_map.1 hc with ⟨d, hd, rfl⟩
    have hd10 : d < 10 := Nat.digits_lt_base (by norm_num) (List.mem_reverse.1 hd)
    interval_cases d <;> decide

theorem py_str_int_chars (i : ℤ) :
    ∀ c ∈ (py_str_int i).data, c ∈ ("-0123456789" : String).data := by
  intro c hc
  have hset : ("-0123456789" : String).data = '-' :: ("0123456789" : String).data := rfl
  unfold py_str_int at hc
  split at hc
  · rw [data_append] at hc
    rcases List.mem_append.1 hc with h1 | h2
    · have hminus : ("-" : String).data = ['-'] := rfl
      rw [hminus] at h1; simp at h1; subst h1; decide
    · rw [hset]; exact List.mem_cons_of_mem _ (py_str_nat_chars _ c h2)
  · rw [hset]; exact List.mem_cons_of_mem _ (py_str_nat_chars _ c hc)

theorem upper_fixed_chars : ∀ c ∈ ("-0123456789" : String).data, Char.toUpper c = c := by
  decide

theorem error_detail_no_timeout (rc : ℤ) :
    strContains (upperStr ("ERROR:" ++ py_str_int rc)) "TIMEOUT" = false := by
  cases h : strContains (upperStr ("ERROR:" ++ py_str_int rc)) "TIMEOUT"
  · rfl
  · exfalso
    have hT : ('T' : Char) ∈ ("TIMEOUT" : String).data := by decide
    have hmem := containsSub_subset _ _ h 'T' hT
    have hdata : (upperStr ("ERROR:" ++ py_str_int rc)).data
        = ("ERROR:" : String).data.map Char.toUpper
          ++ (py_str_int rc).data.map Char.toUpper := by
      show (("ERROR:" ++ py_str_int rc).data.map Char.toUpper) = _
      rw [data_append, List.map_append]
    rw [hdata] at hmem
    rcases List.mem_append.1 hmem with h1 | h2
    · exact absurd h1 (by decide)
    · rcases List.mem_map.1 h2 with ⟨c, hc, hcT⟩
      have hcs := py_str_int_chars rc c hc
      rw [upper_fixed_chars c hcs] at hcT
      subst hcT
      exact absurd hcs (by decide)

theorem error_reason_ne_timeout (s : String) : "ERROR:" ++ s ≠ "TIMEOUT" := by
  intro h
  have h2 := congrArg String.data h
  rw [data_append] at h2
  have hE : ("ERROR:" : String).data = ['E', 'R', 'R', 'O', 'R', ':'] := rfl
  rw [hE] at h2
  have h3 := congrArg List.head? h2
  simp [List.head?] at h3

theorem str_append_assoc (a b c : String) : a ++ b ++ c = a ++ (b ++ c) := by
  cases a; cases b; cases c
  show String.mk _ = String.mk _
  rw [List.append_assoc]

theorem pyFloat_eval (l : List Char) (a b k : ℕ)
    (hc : (l.count '.' ≤ 1 && l.any Char.isDigit) = true)
    (ha : digitsToNat (intPartOf l) = a) (hb : digitsToNat (fracPartOf l) = b)
    (hk : (fracPartOf l).length = k) :
    pyFloat l = some ((a : ℚ) + (b : ℚ) / 10 ^ k) := by
  unfold pyFloat
  rw [if_pos hc, ha, hb, hk]

theorem parse_latency_pat1 (s : String) (g : List Char) (q : ℚ)
    (h1 : searchAt matchPat1At s.data = some g) (h2 : pyFloat g = some q) :
    parse_latency s = some q := by
  unfold parse_latency
  simp only []
  rw [h1]
  show (match pyFloat g with
    | some v => some v
    | none => parse_latency_fallback s.data) = some q
  rw [h2]

theorem parse_latency_pat2 (s : String) (g : List Char) (q : ℚ)
    (h1 : searchAt matchPat1At s.data = none)
    (h2 : searchAt matchPat2At s.data = some g) (h3 : pyFloat g = some q) :
    parse_latency s = some q := by
  unfold parse_latency
  simp only []
  rw [h1]
  show parse_latency_fallback s.data = some q
  unfold parse_latency_fallback
  rw [h2]
  exact h3

theorem parse_latency_no_match (s : String)
    (h1 : searchAt matchPat1At s.data = none)
    (h2 : searchAt matchPat2At s.data = none) :
    parse_latency s = none := by
  unfold parse_latency
  simp only []
  rw [h1]
  show parse_latency_fallback s.data = none
  unfold parse_latency_fallback
  rw [h2]

/-! ## Claim theorems -/

/-- Claim C1: on a single outage state machine starting `UP`,
`record_failure` reports a first failure exactly when the state before
the call is `UP`, `record_success` announces recovery exactly when the
state before the call is `DOWN`; repeated `record_success` while `UP`
always returns `(UP, false)`; the sequence failure, failure, success,
failure yields the flags `(true, false, true, true)`. -/
theorem C1_outage_state_machine :
    (∀ s : State, ((record_failure s).1.2 = true ↔ s = State.UP) ∧
      ((record_success s).1.2 = true ↔ s = State.DOWN)) ∧
    record_success State.UP = ((State.UP, false), State.UP) ∧
    (∀ n : ℕ, run_ops State.UP (List.replicate n Op.succ)
      = List.replicate n (State.UP, false)) ∧
    (run_ops State.UP [Op.fail, Op.fail, Op.succ, Op.fail]).map Prod.snd
      = [true, false, true, true] := by
  refine ⟨?_, rfl, ?_, rfl⟩
  · intro s
    cases s <;> simp [record_failure, record_success]
  · intro n
    induction n with
    | zero => rfl
    | succ m ih =>
      simp only [List.replicate_succ, run_ops, step_op, record_success]
      rw [ih]

/-- Claim C6: the latency parser maps `"time=23ms"` to `23.0`,
`"time=12.3 ms"` to `12.3`, text with a bare `"42.5 ms"` and no `time=`
keyword to `42.5`, and text with no number-followed-by-ms pattern to
none. -/
theorem C6_latency_parsing :
    parse_latency "time=23ms" = some 23 ∧
    parse_latency "time=12.3 ms" = some (123 / 10) ∧
    parse_latency "something 42.5 ms" = some (85 / 2) ∧
    parse_latency "no time here" = none := by
  refine ⟨?_, ?_, ?_, ?_⟩
  · have h2 : pyFloat ['2', '3'] = some 23 := by
      rw [pyFloat_eval ['2', '3'] 23 0 0 (by decide) (by decide) (by decide) (by decide)]
      norm_num
    exact parse_latency_pat1 _ ['2', '3'] _ (by decide) h2
  · have h2 : pyFloat ['1', '2', '.', '3'] = some (123 / 10) := by
      rw [pyFloat_eval ['1', '2', '.', '3'] 12 3 1 (by decide) (by decide) (by decide)
        (by decide)]
      norm_num
    exact parse_latency_pat1 _ ['1', '2', '.', '3'] _ (by decide) h2
  · have h2 : pyFloat ['4', '2', '.', '5'] = some (85 / 2) := by
      rw [pyFloat_eval ['4', '2', '.', '5'] 42 5 1 (by decide) (by decide) (by decide)
        (by decide)]
      norm_num
    exact parse_latency_pat2 _ ['4', '2', '.', '5'] _ (by decide) (by decide) h2
  · exact parse_latency_no_match _ (by decide) (by decide)

/-- Claim C8: at a cycle boundary of the per-target scheduling loop the
target is re-resolved by alias from the live target list; when no target
with the alias exists, or the resolved target is disabled, the loop
returns normally and performs no further probes for that alias. -/
theorem C8_disabled_target_stops_loop (fuel k : ℕ) (lists : ℕ → List TargetConfig)
    (alias_ : String)
    (h : ∀ t, resolve (lists k) alias_ = some t → t.enabled = false) :
    schedule_trace fuel lists k alias_ = [] := by
  cases fuel with
  | zero => rfl
  | succ n =>
    unfold schedule_trace
    cases hr : resolve (lists k) alias_ with
    | none => rfl
    | some t => simp [h t hr]

/-- Witness for C8: with a live list holding only a disabled target named
`"a"`, the loop for alias `"a"` performs no probes. -/
theorem C8_witness :
    schedule_trace 5 (fun _ => [⟨"a", "h", 60, 1000, false⟩]) 0 "a" = [] := by
  apply C8_disabled_target_stops_loop
  intro t ht
  have hres : resolve [⟨"a", "h", 60, 1000, false⟩] "a"
      = some ⟨"a", "h", 60, 1000, false⟩ := by decide
  rw [hres] at ht
  cases ht
  rfl

/-- Claim C10: on non-Windows platforms the per-packet timeout handed to
the ping command is `max(1, ceil(timeout_ms / 1000))` whole seconds — at
least one full second for any configured timeout below 1000 ms — and the
harness-level bound is that value plus 2 seconds.  The ceiling is
characterised as the least `k ≥ 1` with `timeout_ms ≤ 1000 * k`. -/
theorem C10_packet_timeout_ceiling (timeout_ms : ℕ) :
    1 ≤ run_ping_packet_timeout timeout_ms ∧
    timeout_ms ≤ 1000 * run_ping_packet_timeout timeout_ms ∧
    (∀ k : ℕ, 1 ≤ k → timeout_ms ≤ 1000 * k → run_ping_packet_timeout timeout_ms ≤ k) ∧
    (timeout_ms < 1000 → run_ping_packet_timeout timeout_ms = 1) ∧
    run_ping_harness_timeout timeout_ms = run_ping_packet_timeout timeout_ms + 2 := by
  unfold run_ping_harness_timeout run_ping_packet_timeout timeout_seconds
  refine ⟨?_, ?_, ?_, ?_, rfl⟩ <;> simp only [Nat.max_def] <;> split <;> omega

/-- Witness for C10: a 500 ms configured timeout is enforced as one full
second, which is within any allowed bound `k ≥ 1`, and the harness bound
is 3 seconds. -/
theorem C10_witness :
    run_ping_packet_timeout 500 = 1 ∧
    run_ping_packet_timeout 500 ≤ 3 ∧
    run_ping_harness_timeout 500 = run_ping_packet_timeout 500 + 2 :=
  ⟨(C10_packet_timeout_ceiling 500).2.2.2.1 (by decide),
   (C10_packet_timeout_ceiling 500).2.2.1 3 (by decide) (by decide),
   (C10_packet_timeout_ceiling 500).2.2.2.2⟩

/-- Claim C2: exit code 0 yields success with a non-None latency — the
parsed value, or else the measured elapsed time rounded to one decimal;
a nonzero exit code with a timed-out indicator in the output yields
`TIMEOUT`; with an unreachable indicator (and no timed-out indicator)
`UNREACHABLE`; any other nonzero exit code `ERROR:<code>`; and expiry of
the harness-level timeout yields `TIMEOUT` with no latency. -/
theorem C2_outcome_classification (rc : ℤ) (out : String) (e : ℚ) (t : ℕ) :
    (rc = 0 → interpret rc out e t =
      { success := true
        latency_ms := some ((parse_latency out).getD (py_round1 e))
        reason := "OK" }) ∧
    (rc ≠ 0 → hasTimeoutInd out = true →
      interpret rc out e t = { success := false, latency_ms := none, reason := "TIMEOUT" }) ∧
    (rc ≠ 0 → hasTimeoutInd out = false → hasUnreachInd out = true →
      interpret rc out e t =
        { success := false, latency_ms := none, reason := "UNREACHABLE" }) ∧
    (rc ≠ 0 → hasTimeoutInd out = false → hasUnreachInd out = false →
      interpret rc out e t =
        { success := false, latency_ms := none, reason := "ERROR:" ++ py_str_int rc }) ∧
    run_ping ProcOutcome.harness_timeout e t =
      { success := false, latency_ms := none, reason := "TIMEOUT" } := by
  refine ⟨?_, ?_, ?_, ?_, rfl⟩
  · intro h0
    unfold interpret
    rw [if_pos h0]
  · intro h0 hti
    unfold interpret
    rw [if_neg h0]
    unfold hasTimeoutInd at hti
    rw [if_pos hti]
  · intro h0 hti hun
    unfold interpret
    rw [if_neg h0]
    unfold hasTimeoutInd at hti
    unfold hasUnreachInd at hun
    rw [if_neg (by rw [hti]; exact Bool.false_ne_true), if_pos hun]
  · intro h0 hti hun
    unfold interpret
    rw [if_neg h0]
    unfold hasTimeoutInd at hti
    unfold hasUnreachInd at hun
    rw [if_neg (by rw [hti]; exact Bool.false_ne_true),
      if_neg (by rw [hun]; exact Bool.false_ne_true)]

/-- Witness for C2: one concrete probe outcome per classification branch,
matching the repository's own unit tests for `_interpret`. -/
theorem C2_witness :
    interpret 0 "time=15ms" 14 1000
      = { success := true, latency_ms := some 15, reason := "OK" } ∧
    interpret 1 "Request timed out." 0 1000
      = { success := false, latency_ms := none, reason := "TIMEOUT" } ∧
    interpret 1 "Destination Host Unreachable" 0 1000
      = { success := false, latency_ms := none, reason := "UNREACHABLE" } ∧
    interpret 2 "unknown" 0 1000
      = { success := false, latency_ms := none, reason := "ERROR:2" } := by
  refine ⟨?_, ?_, ?_, ?_⟩
  · rw [(C2_outcome_classification 0 "time=15ms" 14 1000).1 rfl]
    have h2 : pyFloat ['1', '5'] = some 15 := by
      rw [pyFloat_eval ['1', '5'] 15 0 0 (by decide) (by decide) (by decide) (by decide)]
      norm_num
    rw [parse_latency_pat1 _ ['1', '5'] _ (by decide) h2]
    rfl
  · exact (C2_outcome_classification 1 "Request timed out." 0 1000).2.1
      (by decide) (by decide)
  · exact (C2_outcome_classification 1 "Destination Host Unreachable" 0 1000).2.2.1
      (by decide) (by decide) (by decide)
  · rw [(C2_outcome_classification 2 "unknown" 0 1000).2.2.2.1
      (by decide) (by decide) (by decide)]
    have hd : Nat.digits 10 2 = [2] := by
      rw [Nat.digits_def' (by norm_num : (1 : ℕ) < 10) (by norm_num : 0 < 2)]
      norm_num
    have h2 : py_str_int 2 = "2" := by
      unfold py_str_int py_str_nat
      rw [if_neg (by norm_num), show ((2 : ℤ).natAbs) = 2 from rfl,
        if_neg (by norm_num), hd]
      decide
    rw [h2]
    decide

/-- Claim C3 is false as the spec states it: when the probe subprocess
cannot be spawned (here `FileNotFoundError` from
`asyncio.create_subprocess_exec`), `run_ping` returns
`reason = "ERROR:FileNotFoundError"`, not `reason = "TIMEOUT"`. -/
theorem C3_counterexample :
    run_ping (ProcOutcome.exn none "FileNotFoundError") 0 1000
      = { success := false, latency_ms := none, reason := "ERROR:FileNotFoundError" } ∧
    (run_ping (ProcOutcome.exn none "FileNotFoundError") 0 1000).reason ≠ "TIMEOUT" :=
  ⟨rfl, by decide⟩

/-- Amended claim C3: a process-spawn failure (any exception other than
the harness timeout) yields `latency = none` and
`reason = "ERROR:<returncode attribute if present, else exception type
name>"` — never `TIMEOUT`; only expiry of the harness-level timeout
yields `reason = TIMEOUT` with `latency = none`. -/
theorem C3_amended_spawn_failure (attr : Option ℤ) (name : String) (e : ℚ) (t : ℕ) :
    (run_ping (ProcOutcome.exn attr name) e t).latency_ms = none ∧
    (run_ping (ProcOutcome.exn attr name) e t).reason
      = "ERROR:" ++ (match attr with
        | some n => py_str_int n
        | none => name) ∧
    (run_ping (ProcOutcome.exn attr name) e t).reason ≠ "TIMEOUT" ∧
    run_ping ProcOutcome.harness_timeout e t
      = { success := false, latency_ms := none, reason := "TIMEOUT" } :=
  ⟨rfl, rfl, error_reason_ne_timeout _, rfl⟩

/-- Claim C5: `run_ping` is total over every process outcome — every
failure mode of the subprocess (spawn error, harness timeout expiry,
unparseable output) is captured in the returned result's `reason` field,
which always lies in the `OK`/`TIMEOUT`/`UNREACHABLE`/`ERROR:<...>`
vocabulary. -/
theorem C5_run_ping_total (o : ProcOutcome) (e : ℚ) (t : ℕ) :
    (run_ping o e t).reason = "OK" ∨ (run_ping o e t).reason = "TIMEOUT" ∨
    (run_ping o e t).reason = "UNREACHABLE" ∨
    ∃ s : String, (run_ping o e t).reason = "ERROR:" ++ s := by
  cases o with
  | completed rc out =>
    have hrp : run_ping (ProcOutcome.completed rc out) e t
        = interpret (rc.getD 0) out e t := rfl
    rw [hrp]
    unfold interpret
    by_cases h0 : rc.getD 0 = 0
    · rw [if_pos h0]
      left; rfl
    · rw [if_neg h0]
      by_cases h1 : (strContains (lowerStr out) "timed out"
          || strContains (lowerStr out) "timeout"
          || strContains (lowerStr out) "request timed out") = true
      · rw [if_pos h1]
        right; left; rfl
      · rw [if_neg h1]
        by_cases h2 : strContains (lowerStr out) "unreachable" = true
        · rw [if_pos h2]
          right; right; left; rfl
        · rw [if_neg h2]
          right; right; right
          exact ⟨py_str_int (rc.getD 0), rfl⟩
  | harness_timeout =>
    right; left; rfl
  | exn attr name =>
    right; right; right
    exact ⟨(match attr with
      | some n => py_str_int n
      | none => name), rfl⟩

/-- Claim C4 is false as stated: on a first failure of an outage with
notifications enabled but sound-on-down disabled, the rules enumerated by
the claim compute zero Notifier invocations, yet `run_one_target`
invokes the Notifier once (without sound) — more than the computed
number. -/
theorem C4_counterexample :
    (run_one_target_notifications "a" false true "TIMEOUT" true false).length = 1 ∧
    (run_one_target_notifications "a" false true "TIMEOUT" true false).map
      NotifyCall.play_sound = [false] ∧
    claimed_notify_count false true true false = 0 := by
  refine ⟨?_, ?_, rfl⟩ <;> rfl

/-- Amended claim C4: in every probe cycle the Notifier is invoked
exactly the number of times computed by the decision rules of
`run_one_target` — on success, once exactly when the recovery flag and
notifications are enabled; on failure, once exactly when notifications
are enabled — never more; sound is played exactly on a failure that is
the first of its outage with sound-on-down enabled; and no notification
is emitted on a non-recovery success or when notifications are
disabled. -/
theorem C4_amended_notification_rules (alias_ reason : String)
    (success flag en snd : Bool) :
    (run_one_target_notifications alias_ success flag reason en snd).length
      = amended_notify_count success flag en ∧
    (∀ c ∈ run_one_target_notifications alias_ success flag reason en snd,
      c.play_sound = (!success && flag && snd)) ∧
    (en = false → run_one_target_notifications alias_ success flag reason en snd = []) := by
  unfold run_one_target_notifications amended_notify_count
  cases success <;> cases flag <;> cases en <;> cases snd <;> simp

/-- Witness for C4's amended rules: a first failure with notifications
and sound-on-down enabled emits exactly one notification, with sound;
a non-recovery success with notifications disabled emits none. -/
theorem C4_amended_witness :
    (run_one_target_notifications "a" false true "TIMEOUT" true true).length
      = amended_notify_count false true true ∧
    (⟨"Pingu", "a is DOWN: TIMEOUT.", true⟩ : NotifyCall)
      ∈ run_one_target_notifications "a" false true "TIMEOUT" true true ∧
    NotifyCall.play_sound ⟨"Pingu", "a is DOWN: TIMEOUT.", true⟩
      = (!false && true && true) ∧
    run_one_target_notifications "b" true false "OK" false false = [] := by
  refine ⟨(C4_amended_notification_rules "a" "TIMEOUT" false true true true).1, ?_, ?_, ?_⟩
  · show _ ∈ run_one_target_notifications "a" false true "TIMEOUT" true true
    decide
  · exact (C4_amended_notification_rules "a" "TIMEOUT" false true true true).2.1 _
      (by decide)
  · exact (C4_amended_notification_rules "b" "OK" true false false false).2.2 rfl

/-- Claim C7: every published update's display line is
`"<alias> - OK <detail>"` on success and `"<alias> - DOWN <detail>"` on
failure; in display mode `codes` the detail is `"200"` for success,
`"408"` for a `TIMEOUT` failure and `"503"` for any other failure
(`UNREACHABLE` or `ERROR:<code>`); in display mode `latency` the detail
is the raw detail string — the latency text on success, the raw failure
reason on failure — unchanged. -/
theorem C7_display_line (alias_ d : String) (lat : Option ℚ) (rc : ℤ) :
    run_one_target_line alias_ { success := true, latency_ms := lat, reason := "OK" }
      "codes" = alias_ ++ " - OK 200" ∧
    run_one_target_line alias_
      { success := false, latency_ms := none, reason := "TIMEOUT" } "codes"
      = alias_ ++ " - DOWN 408" ∧
    run_one_target_line alias_
      { success := false, latency_ms := none, reason := "UNREACHABLE" } "codes"
      = alias_ ++ " - DOWN 503" ∧
    run_one_target_line alias_
      { success := false, latency_ms := none, reason := "ERROR:" ++ py_str_int rc }
      "codes" = alias_ ++ " - DOWN 503" ∧
    run_one_target_line alias_ { success := true, latency_ms := lat, reason := "OK" }
      "latency" = alias_ ++ " - OK " ++ success_detail lat ∧
    run_one_target_line alias_ { success := false, latency_ms := none, reason := d }
      "latency" = alias_ ++ " - DOWN " ++ d := by
  refine ⟨?_, ?_, ?_, ?_, rfl, rfl⟩
  · show alias_ ++ " - OK " ++ detail_for_display true (success_detail lat) "codes"
      = alias_ ++ " - OK 200"
    rw [show detail_for_display true (success_detail lat) "codes" = "200" from rfl,
      str_append_assoc]
    exact congrArg (fun x => alias_ ++ x) (by decide)
  · show alias_ ++ " - DOWN " ++ detail_for_display false "TIMEOUT" "codes"
      = alias_ ++ " - DOWN 408"
    rw [show detail_for_display false "TIMEOUT" "codes" = "408" from by decide,
      str_append_assoc]
    exact congrArg (fun x => alias_ ++ x) (by decide)
  · show alias_ ++ " - DOWN " ++ detail_for_display false "UNREACHABLE" "codes"
      = alias_ ++ " - DOWN 503"
    rw [show detail_for_display false "UNREACHABLE" "codes" = "503" from by decide,
      str_append_assoc]
    exact congrArg (fun x => alias_ ++ x) (by decide)
  · show alias_ ++ " - DOWN "
        ++ detail_for_display false ("ERROR:" ++ py_str_int rc) "codes"
      = alias_ ++ " - DOWN 503"
    have h503 : detail_for_display false ("ERROR:" ++ py_str_int rc) "codes" = "503" := by
      unfold detail_for_display
      rw [if_pos rfl, if_neg Bool.false_ne_true]
      rw [error_detail_no_timeout rc]
      exact if_neg Bool.false_ne_true
    rw [h503, str_append_assoc]
    exact congrArg (fun x => alias_ ++ x) (by decide)

theorem inFlight_update_true {M : ℕ} (p : Fin M → Bool) (i : Fin M) (k : ℕ)
    (hpi : p i = false) :
    inFlight (⟨k, Function.update p i true⟩ : MonSt M)
      = inFlight (⟨k + 1, p⟩ : MonSt M) + 1 := by
  unfold inFlight
  have hins : (Finset.univ.filter fun j => Function.update p i true j)
      = insert i (Finset.univ.filter fun j => p j) := by
    ext j
    by_cases hj : j = i
    · subst hj
      simp [Function.update_same, hpi]
    · simp [Function.update_noteq hj, hj]
  rw [hins, Finset.card_insert_of_not_mem (by simp [hpi])]

theorem inFlight_update_false {M : ℕ} (p : Fin M → Bool) (i : Fin M) (k : ℕ)
    (hpi : p i = true) :
    inFlight (⟨k, Function.update p i false⟩ : MonSt M) + 1
      = inFlight (⟨k, p⟩ : MonSt M) := by
  unfold inFlight
  have hins : (Finset.univ.filter fun j => p j)
      = insert i (Finset.univ.filter fun j => Function.update p i false j) := by
    ext j
    by_cases hj : j = i
    · subst hj
      simp [hpi]
    · simp [Function.update_noteq hj, hj]
  rw [hins, Finset.card_insert_of_not_mem (by simp [Function.update_same])]

theorem monStep_preserves {M N : ℕ} {a b : MonSt M} (h : MonStep M a b)
    (ha : a.sem + inFlight a = N) : b.sem + inFlight b = N := by
  cases h with
  | acquire i k hpi hsem =>
    have hcount := inFlight_update_true a.probing i k hpi
    have hs : inFlight (⟨k + 1, a.probing⟩ : MonSt M) = inFlight a := rfl
    rw [hs] at hcount
    show k + inFlight (⟨k, Function.update a.probing i true⟩ : MonSt M) = N
    rw [hcount]
    rw [hsem] at ha
    omega
  | release i hpi =>
    have hcount := inFlight_update_false a.probing i (a.sem + 1) hpi
    have hs : inFlight (⟨a.sem + 1, a.probing⟩ : MonSt M) = inFlight a := rfl
    rw [hs] at hcount
    show a.sem + 1 + inFlight (⟨a.sem + 1, Function.update a.probing i false⟩ : MonSt M) = N
    omega

theorem reachable_sem_invariant {M N : ℕ} (s : MonSt M) (h : Reachable M N s) :
    s.sem + inFlight s = N := by
  induction h with
  | refl =>
    show N + inFlight (initSt M N) = N
    have h0 : inFlight (initSt M N) = 0 := by
      unfold inFlight initSt
      simp
    omega
  | tail _ hstep ih => exact monStep_preserves hstep ih

/-- Claim C9: with the shared counting limiter capped at `N`, in every
state reachable during a monitoring session — whatever the number `M` of
per-target tasks and however acquisitions and releases interleave — at
most `N` probes are in flight simultaneously, because every probe runs
inside a slot of the semaphore. -/
theorem C9_concurrency_bound (M N : ℕ) (s : MonSt M) (h : Reachable M N s) :
    inFlight s ≤ N := by
  have := reachable_sem_invariant s h
  omega

/-- Witness for C9: with limit 1 and 2 tasks, the state after one task
acquires the only slot is reachable, and its in-flight count respects the
bound. -/
theorem C9_witness :
    Reachable 2 1 ⟨0, Function.update (fun _ => false) (0 : Fin 2) true⟩ ∧
    inFlight (⟨0, Function.update (fun _ => false) (0 : Fin 2) true⟩ : MonSt 2) ≤ 1 := by
  have hr : Reachable 2 1 ⟨0, Function.update (fun _ => false) (0 : Fin 2) true⟩ :=
    Relation.ReflTransGen.single (MonStep.acquire (initSt 2 1) 0 0 rfl rfl)
  exact ⟨hr, C9_concurrency_bound 2 1 _ hr⟩

end Pingu
